import Mathlib

/-!
Shallow embedding of `src/zvdata/factor.py` (the factor computation engine).

Frames (`pandas.DataFrame` keyed by `(entity_id, timestamp)`) are modelled as
lists of rows; a missing cell value (NaN) is `Option.none`; an absent frame
(Python `None`) is the `none` of `Option Frame`.  Code that can raise is
modelled in `Except`: `Except.error` is a propagating Python exception, and
the error payload carries the orchestrator state as of the raise, since
Python leaves partially-mutated attributes in place when an exception
propagates out of a method.
-/

namespace ZvData

/-- One row of a frame: the `(entity_id, timestamp)` key plus a single value
column (`none` models NaN). -/
structure Row where
  entityId : Nat
  timestamp : Nat
  value : Option Int
deriving Repr, DecidableEq

/-- A `pandas.DataFrame` keyed by `(entity_id, timestamp)`, as its row list. -/
abbrev Frame := List Row

/-- Modelled from the spec: `df_is_not_null` (from `zvdata.utils.pd_utils`,
not under `src/`) — a frame passes the guard when it is present and
non-empty; the spec words the negation as "empty or absent". -/
def df_is_not_null : Option Frame → Bool
  | none => false
  | some f => !f.isEmpty

/-- `zvdata.scorer.Transformer` (interface only; spec: stateless
`PipeFrame → PipeFrame` mapping that may raise). -/
abbrev Transformer := Frame → Except Unit Frame

/-- `zvdata.scorer.Accumulator` (interface only; spec:
`(PipeFrame, FactorFrame) → FactorFrame` merge that may raise). -/
abbrev Accumulator := Frame → Option Frame → Except Unit Frame

/-- The `fill_method` string passed to `DataFrame.fillna` (`'ffill'` or
`'bfill'`). -/
inductive FillMethod where
  | ffill
  | bfill
deriving Repr, DecidableEq

/-- The constructor-time configuration of a `Factor` that the compute
pipeline reads (timestamps are day numbers). -/
structure FactorConfig where
  startTimestamp : Nat
  endTimestamp : Nat
  keepAllTimestamp : Bool
  fillMethod : FillMethod
  effectiveNumber : Nat
  transformers : List Transformer
  accumulator : Option Accumulator
  needPersist : Bool
  dryRun : Bool

/-- The mutable frame attributes of a `Factor` instance, plus the persistence
sink: `persisted` is the durable copy written by `df_to_db` and
`persistCalls` counts invocations of `persist_result`. -/
structure FactorState where
  dataDf : Option Frame
  pipeDf : Option Frame
  factorDf : Option Frame
  resultDf : Option Frame
  persisted : Option Frame
  persistCalls : Nat
deriving Repr, DecidableEq

/-- The `for transformer in self.transformers` loop of `Factor.do_compute`:
each transform consumes the pipe frame produced by the previous one.  On a
raise, the error payload is the pipe frame from the last *successful*
assignment, since `self.pipe_df = transformer.transform(self.pipe_df)` does
not assign when the right-hand side raises. -/
def runTransformers : List Transformer → Frame → Except Frame Frame
  | [], p => Except.ok p
  | t :: ts, p =>
    match t p with
    | Except.error _ => Except.error p
    | Except.ok p2 => runTransformers ts p2

/-- The first stage of `Factor.do_compute`:
`if df_is_not_null(self.pipe_df) and self.transformers:` run the transformer
loop, else leave the pipe frame alone. -/
def transformStage (cfg : FactorConfig) (pipe : Option Frame) :
    Except (Option Frame) (Option Frame) :=
  if df_is_not_null pipe && !cfg.transformers.isEmpty then
    match pipe with
    | some p =>
      match runTransformers cfg.transformers p with
      | Except.error p2 => Except.error (some p2)
      | Except.ok p2 => Except.ok (some p2)
    | none => Except.ok pipe
  else Except.ok pipe

/-- `Factor.do_compute`: transformer chain, then
`if df_is_not_null(self.pipe_df) and self.accumulator:` merge into
`factor_df`, `else: self.factor_df = self.pipe_df`. -/
def doCompute (cfg : FactorConfig) (s : FactorState) :
    Except FactorState FactorState :=
  match transformStage cfg s.pipeDf with
  | Except.error p => Except.error { s with pipeDf := p }
  | Except.ok p =>
    let s2 := { s with pipeDf := p }
    if df_is_not_null s2.pipeDf && cfg.accumulator.isSome then
      match s2.pipeDf, cfg.accumulator with
      | some q, some acc =>
        match acc q s2.factorDf with
        | Except.error _ => Except.error s2
        | Except.ok f => Except.ok { s2 with factorDf := some f }
      | _, _ => Except.ok { s2 with factorDf := s2.pipeDf }
    else Except.ok { s2 with factorDf := s2.pipeDf }

/-- `Factor.pre_compute`: `self.pipe_df = self.data_df`. -/
def preCompute (s : FactorState) : FactorState :=
  { s with pipeDf := s.dataDf }

/-- `Factor.persist_result`: `df_to_db(df=self.factor_df, ...)` — a durable
upsert of the factor frame; modelled as recording the written frame and
counting the call. -/
def persist_result (s : FactorState) : FactorState :=
  { s with persisted := s.factorDf, persistCalls := s.persistCalls + 1 }

/-- `pd.date_range(start, end)`: every calendar day from `start` to `end`
inclusive (empty when `start > end`). -/
def dateRange (a b : Nat) : List Nat :=
  (List.range (b + 1 - a)).map (fun i => a + i)

/-- The `(entity_id, timestamp)` key of a row. -/
def rowKey (r : Row) : Nat × Nat := (r.entityId, r.timestamp)

/-- Deduplication keeping the first occurrence, with an accumulator of keys
already seen. -/
def firstDedupAux : List Nat → List Nat → List Nat
  | [], _ => []
  | x :: xs, seen =>
    if x ∈ seen then firstDedupAux xs seen
    else x :: firstDedupAux xs (x :: seen)

/-- `result_df.index.levels[0]`: the distinct entity ids of the frame. -/
def firstDedup (l : List Nat) : List Nat := firstDedupAux l []

/-- Row deduplication by key, keeping the first occurrence of each key. -/
def dedupRowsAux : Frame → List (Nat × Nat) → Frame
  | [], _ => []
  | r :: rs, seen =>
    if rowKey r ∈ seen then dedupRowsAux rs seen
    else r :: dedupRowsAux rs (rowKey r :: seen)

/-- `self.result_df.loc[~self.result_df.index.duplicated(keep='first')]`. -/
def dedupRows (f : Frame) : Frame := dedupRowsAux f []

/-- Value lookup used by `reindex`: the value of the first row with the
given key, NaN (`none`) when the key is absent. -/
def lookupVal (f : Frame) (e t : Nat) : Option Int :=
  match f.find? (fun r => r.entityId == e && r.timestamp == t) with
  | some r => r.value
  | none => none

/-- `self.result_df.reindex(new_index)` where `new_index` is
`MultiIndex.from_product([entities, date_range])`: one row per
`(entity, day)` pair, rows absent from the source appearing as NaN. -/
def reindexRows (f : Frame) (es ds : List Nat) : Frame :=
  (es.map (fun e => ds.map (fun t => Row.mk e t (lookupVal f e t)))).flatten

/-- Forward fill with a limit, carrying the last valid value and the count
of consecutive NaNs since it: a NaN is filled only while that count is
below the limit. -/
def ffillAux (lim : Nat) : Option Int → Nat → List (Option Int) → List (Option Int)
  | _, _, [] => []
  | _, _, some x :: vs => some x :: ffillAux lim (some x) 0 vs
  | some x, cnt, none :: vs =>
    (if cnt < lim then some x else none) :: ffillAux lim (some x) (cnt + 1) vs
  | none, cnt, none :: vs => none :: ffillAux lim none (cnt + 1) vs

/-- `fillna(method='ffill', limit=lim)` down the single value column. -/
def ffillLimited (lim : Nat) (vs : List (Option Int)) : List (Option Int) :=
  ffillAux lim none 0 vs

/-- `fillna(method='bfill', limit=lim)`: forward fill of the reversal. -/
def bfillLimited (lim : Nat) (vs : List (Option Int)) : List (Option Int) :=
  (ffillLimited lim vs.reverse).reverse

/-- `self.result_df.fillna(method=self.fill_method, limit=self.effective_number)`
applied to the value column. -/
def applyFill : FillMethod → Nat → List (Option Int) → List (Option Int)
  | FillMethod.ffill, lim, vs => ffillLimited lim vs
  | FillMethod.bfill, lim, vs => bfillLimited lim vs

/-- Write a list of values back into the value column of a frame. -/
def setValues (rs : Frame) (vs : List (Option Int)) : Frame :=
  List.zipWith (fun r v => Row.mk r.entityId r.timestamp v) rs vs

/-- `Factor.fill_gap`.  When `keep_all_timestamp` is off the body is
skipped.  When it is on, the code evaluates
`self.result_df.index.levels[0]` before anything else; on an absent
(`None`) result frame this raises `AttributeError` (`None` has no `index`),
modelled as `Except.error`.  Otherwise: deduplicate the index keeping the
first occurrence, reindex onto the dense `entities × date_range` product,
and fill NaNs along `fill_method` capped at `effective_number`. -/
def fillGap (cfg : FactorConfig) (result : Option Frame) :
    Except Unit (Option Frame) :=
  if cfg.keepAllTimestamp then
    match result with
    | none => Except.error ()
    | some df =>
      let es := firstDedup (df.map Row.entityId)
      let ds := dateRange cfg.startTimestamp cfg.endTimestamp
      let ri := reindexRows (dedupRows df) es ds
      Except.ok (some (setValues ri
        (applyFill cfg.fillMethod cfg.effectiveNumber (ri.map Row.value))))
  else Except.ok result

/-- `Factor.after_compute`: `self.fill_gap()` then, when `need_persist`,
`self.persist_result()`.  A raise inside `fill_gap` propagates before the
sink is reached. -/
def afterCompute (cfg : FactorConfig) (s : FactorState) :
    Except FactorState FactorState :=
  match fillGap cfg s.resultDf with
  | Except.error _ => Except.error s
  | Except.ok r =>
    let s1 := { s with resultDf := r }
    if cfg.needPersist then Except.ok (persist_result s1) else Except.ok s1

/-- `Factor.compute`: `pre_compute`, `do_compute`, `after_compute`, a raise
at any stage aborting the rest of the cycle. -/
def compute (cfg : FactorConfig) (s : FactorState) :
    Except FactorState FactorState :=
  match doCompute cfg (preCompute s) with
  | Except.error s1 => Except.error s1
  | Except.ok s1 => afterCompute cfg s1

/-- The orchestrator state an observer sees after a cycle, whether the cycle
completed or aborted by a raise. -/
def outState : Except FactorState FactorState → FactorState
  | Except.ok s => s
  | Except.error s => s

/-- The rows of the persisted store belonging to one entity, in stored
(time) order. -/
def entityRows (store : Frame) (e : Nat) : Frame :=
  store.filter (fun r => r.entityId == e)

/-- Modelled from the spec: `DataReader.load_window_df` (from
`zvdata.reader`, not under `src/`) — "load only the trailing ValidWindow
rows per entity from the persisted FactorFrame"; rows are time-ordered
within entity, so the trailing rows are the final `valid_window` of each
entity's row list. -/
def load_window_df (valid_window : Nat) (store : Frame) : Frame :=
  ((firstDedup (store.map Row.entityId)).map
    (fun e => (entityRows store e).drop ((entityRows store e).length - valid_window))).flatten

/-- Modelled from the spec: `get_data` with a `start_timestamp` bound (from
`zvdata.api`, not under `src/`) — "load the entire persisted FactorFrame
from the configured start timestamp onward". -/
def get_data (start : Nat) (store : Frame) : Frame :=
  store.filter (fun r => decide (start ≤ r.timestamp))

/-- The warm-start decision of `Factor.__init__`: when `need_persist`, seed
`factor_df` via `load_window_df` in dry-run mode and via `get_data` from
`start_timestamp` otherwise; without persistence `factor_df` stays `None`. -/
def warm_start (need_persist dry_run : Bool) (valid_window start : Nat)
    (store : Frame) : Option Frame :=
  if need_persist then
    if dry_run then some (load_window_df valid_window store)
    else some (get_data start store)
  else none

/-- A Python runtime value, as needed to follow the constructor argument
plumbing of `ScoreFactor.__init__` → `Factor.__init__` (Python binds
positional arguments to parameter slots with no type checking). -/
inductive PyVal where
  | vBool : Bool → PyVal
  | vInt : Int → PyVal
  | vStr : String → PyVal
  | vListLen : Nat → PyVal
  | vNone : PyVal
deriving Repr, DecidableEq

/-- The values `Factor.__init__` stores from its parameters after
`auto_load` (field names as in the source). -/
structure BaseInitTail where
  valid_window : PyVal
  keep_all_timestamp : PyVal
  fill_method : PyVal
  effective_number : PyVal
  transformers : PyVal
  accumulator : PyVal
  need_persist : PyVal
  dry_run : PyVal
deriving Repr, DecidableEq

/-- Positional-argument binding: slot `i` of the call's argument list, or
the parameter's declared default when fewer arguments were passed. -/
def pyGetD (args : List PyVal) (i : Nat) (dflt : PyVal) : PyVal :=
  args.getD i dflt

/-- `Factor.__init__`, restricted to the parameters after `auto_load` (the
first 17 parameters are forwarded 1:1 by every subclass and are omitted).
Positional slots after `auto_load` are, in source order: `valid_window`
(default 250), `keep_all_timestamp` (default False), `fill_method`
(default 'ffill'), `effective_number` (default 10), `transformers`
(default []), `accumulator` (default None), `need_persist` (default True),
`dry_run` (default False). -/
def factorInitTail (args : List PyVal) : BaseInitTail :=
  { valid_window := pyGetD args 0 (PyVal.vInt 250)
    keep_all_timestamp := pyGetD args 1 (PyVal.vBool false)
    fill_method := pyGetD args 2 (PyVal.vStr "ffill")
    effective_number := pyGetD args 3 (PyVal.vInt 10)
    transformers := pyGetD args 4 (PyVal.vListLen 0)
    accumulator := pyGetD args 5 PyVal.vNone
    need_persist := pyGetD args 6 (PyVal.vBool true)
    dry_run := pyGetD args 7 (PyVal.vBool false) }

/-- The positional arguments after `auto_load` in the
`super().__init__(...)` call of `ScoreFactor.__init__`, in the call's
source order: the subclass has no `valid_window` parameter and passes its
own `keep_all_timestamp, fill_method, effective_number, transformers,
need_persist, dry_run` values positionally. -/
def scoreFactorSuperTail (keep_all_ts fill_mth eff_num transf n_persist d_run : PyVal) :
    List PyVal :=
  [keep_all_ts, fill_mth, eff_num, transf, n_persist, d_run]

/-- `ScoreFactor.__init__`'s effect on the base fields after `auto_load`. -/
def scoreFactorInitTail (keep_all_ts fill_mth eff_num transf n_persist d_run : PyVal) :
    BaseInitTail :=
  factorInitTail (scoreFactorSuperTail keep_all_ts fill_mth eff_num transf n_persist d_run)

/-- `StateFactor.states` — declared as the empty list in the source. -/
def stateFactor_states : List String := []

/-- `StateFactor.get_state(timestamp, entity_id)` — body is `pass`, so it
returns Python `None` for every key. -/
def stateFactor_get_state (timestamp entity_id : Nat) : Option String :=
  none

/-- `StateFactor.get_short_state` — body is `pass`. -/
def stateFactor_get_short_state : Option String := none

/-- `StateFactor.get_long_state` — body is `pass`. -/
def stateFactor_get_long_state : Option String := none

/-- The key set of the dense per-entity calendar index
(`MultiIndex.from_product`). -/
def denseKeys (es ds : List Nat) : List (Nat × Nat) :=
  (es.map (fun e => ds.map (fun t => (e, t)))).flatten

/-- A transformer that cannot raise: a pure frame mapping. -/
def pureT (f : Frame → Frame) : Transformer := fun df => Except.ok (f df)

/-- A transformer that always raises. -/
def raisingT : Transformer := fun _ => Except.error ()

/-- A pure frame mapping adding one to every value. -/
def addOneT : Frame → Frame :=
  fun df => df.map (fun r => Row.mk r.entityId r.timestamp (r.value.map (fun v => v + 1)))

/-- A pure frame mapping doubling every value; does not commute with
`addOneT`. -/
def doubleT : Frame → Frame :=
  fun df => df.map (fun r => Row.mk r.entityId r.timestamp (r.value.map (fun v => v * 2)))

/-- An accumulator that upserts the pipe frame over the factor frame by
key (used only as a concrete configured accumulator in fixtures). -/
def upsertAcc : Accumulator := fun p f =>
  Except.ok ((f.getD []).filter
    (fun r => (p.find? (fun q => rowKey q == rowKey r)).isNone) ++ p)

/-! Concrete fixtures used by the witness and counterexample theorems. -/

/-- A configuration with the keep-all-timestamps option enabled, forward
fill and `effective_number = 2`, over the five calendar days 0..4. -/
def keepCfg : FactorConfig :=
  { startTimestamp := 0, endTimestamp := 4, keepAllTimestamp := true,
    fillMethod := FillMethod.ffill, effectiveNumber := 2,
    transformers := [], accumulator := none, needPersist := false,
    dryRun := false }

def c1Cfg : FactorConfig :=
  { startTimestamp := 0, endTimestamp := 4, keepAllTimestamp := false,
    fillMethod := FillMethod.ffill, effectiveNumber := 10,
    transformers := [raisingT], accumulator := none, needPersist := true,
    dryRun := false }

def c1State : FactorState :=
  { dataDf := some [Row.mk 1 0 (some 1)], pipeDf := none,
    factorDf := some [Row.mk 1 0 (some 42)], resultDf := none,
    persisted := some [Row.mk 1 0 (some 42)], persistCalls := 5 }

def c4Cfg : FactorConfig :=
  { startTimestamp := 0, endTimestamp := 4, keepAllTimestamp := false,
    fillMethod := FillMethod.ffill, effectiveNumber := 10,
    transformers := [], accumulator := some upsertAcc, needPersist := true,
    dryRun := false }

def c4State : FactorState :=
  { dataDf := none, pipeDf := none,
    factorDf := some [Row.mk 1 0 (some 42)], resultDf := none,
    persisted := none, persistCalls := 0 }

def c5Cfg : FactorConfig :=
  { startTimestamp := 0, endTimestamp := 4, keepAllTimestamp := false,
    fillMethod := FillMethod.ffill, effectiveNumber := 10,
    transformers := [pureT addOneT], accumulator := none, needPersist := true,
    dryRun := false }

def c5State : FactorState :=
  { dataDf := some [Row.mk 1 0 (some 3)], pipeDf := none,
    factorDf := none, resultDf := none, persisted := none, persistCalls := 0 }

def c6Cfg : FactorConfig :=
  { startTimestamp := 0, endTimestamp := 4, keepAllTimestamp := false,
    fillMethod := FillMethod.ffill, effectiveNumber := 10,
    transformers := [], accumulator := none, needPersist := false,
    dryRun := false }

def c6State : FactorState :=
  { dataDf := some [Row.mk 1 0 (some 1)], pipeDf := some [Row.mk 1 0 (some 1)],
    factorDf := none, resultDf := none, persisted := none, persistCalls := 0 }

def c9Cfg : FactorConfig :=
  { startTimestamp := 0, endTimestamp := 0, keepAllTimestamp := false,
    fillMethod := FillMethod.ffill, effectiveNumber := 10,
    transformers := [], accumulator := none, needPersist := false,
    dryRun := false }

def c9State : FactorState :=
  { dataDf := some [Row.mk 1 0 (some 1)], pipeDf := some [Row.mk 1 0 (some 1)],
    factorDf := none, resultDf := none, persisted := none, persistCalls := 0 }

def c10Cfg : FactorConfig :=
  { startTimestamp := 0, endTimestamp := 4, keepAllTimestamp := false,
    fillMethod := FillMethod.ffill, effectiveNumber := 10,
    transformers := [pureT addOneT, pureT doubleT], accumulator := none,
    needPersist := false, dryRun := false }

def c10CfgNil : FactorConfig :=
  { c10Cfg with transformers := [] }

def c10State : FactorState :=
  { dataDf := some [Row.mk 1 0 (some 3)], pipeDf := some [Row.mk 1 0 (some 3)],
    factorDf := none, resultDf := none, persisted := none, persistCalls := 0 }

/-- The series [1, NaN, NaN, NaN, 5] over the five consecutive days 0..4
for one entity. -/
def gapSeries : Frame :=
  [Row.mk 1 0 (some 1), Row.mk 1 1 none, Row.mk 1 2 none, Row.mk 1 3 none,
    Row.mk 1 4 (some 5)]

/-- The expected forward-filled series [1, 1, 1, NaN, 5] with the cap 2. -/
def gapFilled : Frame :=
  [Row.mk 1 0 (some 1), Row.mk 1 1 (some 1), Row.mk 1 2 (some 1),
    Row.mk 1 3 none, Row.mk 1 4 (some 5)]

def dupCfg : FactorConfig := { keepCfg with endTimestamp := 0 }

/-- Two rows sharing the key (1, 0); deduplication must keep the first. -/
def dupSeries : Frame := [Row.mk 1 0 (some 7), Row.mk 1 0 (some 9)]

/-! Helper lemmas about the pipeline. -/

theorem doCompute_dataDf (cfg : FactorConfig) (s : FactorState) :
    (outState (doCompute cfg s)).dataDf = s.dataDf := by
  unfold doCompute
  cases transformStage cfg s.pipeDf with
  | error p => rfl
  | ok p =>
    dsimp only
    repeat' split
    all_goals rfl

theorem doCompute_resultDf (cfg : FactorConfig) (s : FactorState) :
    (outState (doCompute cfg s)).resultDf = s.resultDf := by
  unfold doCompute
  cases transformStage cfg s.pipeDf with
  | error p => rfl
  | ok p =>
    dsimp only
    repeat' split
    all_goals rfl

theorem doCompute_no_acc (cfg : FactorConfig) (s : FactorState)
    (hacc : cfg.accumulator = none) :
    doCompute cfg s =
      match transformStage cfg s.pipeDf with
      | Except.error p => Except.error { s with pipeDf := p }
      | Except.ok p => Except.ok { s with pipeDf := p, factorDf := p } := by
  unfold doCompute
  cases transformStage cfg s.pipeDf with
  | error p => rfl
  | ok p => simp [hacc]

theorem afterCompute_ok_destruct (cfg : FactorConfig) (s u : FactorState)
    (h : afterCompute cfg s = Except.ok u) :
    fillGap cfg s.resultDf = Except.ok u.resultDf ∧ u.factorDf = s.factorDf ∧
      u.dataDf = s.dataDf ∧ u.pipeDf = s.pipeDf := by
  unfold afterCompute at h
  cases hf : fillGap cfg s.resultDf with
  | error e => rw [hf] at h; exact absurd h (by simp)
  | ok r =>
    rw [hf] at h
    cases hp : cfg.needPersist with
    | true =>
      simp only [hp, if_true, Except.ok.injEq] at h
      subst h
      simp [persist_result, hf]
    | false =>
      simp only [hp, Bool.false_eq_true, if_false, Except.ok.injEq] at h
      subst h
      simp [hf]

theorem fillGap_ok_of_ok (cfg : FactorConfig) (x r : Option Frame)
    (h : fillGap cfg x = Except.ok r) :
    ∃ r2, fillGap cfg r = Except.ok r2 := by
  unfold fillGap at h ⊢
  by_cases hk : cfg.keepAllTimestamp
  · simp only [hk, if_true] at h ⊢
    cases x with
    | none => exact absurd h (by simp)
    | some df =>
      simp only [Except.ok.injEq] at h
      subst h
      exact ⟨_, rfl⟩
  · simp only [hk, if_false, Except.ok.injEq] at h ⊢
    exact ⟨r, rfl⟩

theorem afterCompute_ok_of_fillGap (cfg : FactorConfig) (s : FactorState)
    (r : Option Frame) (h : fillGap cfg s.resultDf = Except.ok r) :
    ∃ u, afterCompute cfg s = Except.ok u ∧ u.factorDf = s.factorDf := by
  unfold afterCompute
  rw [h]
  by_cases hp : cfg.needPersist
  · refine ⟨persist_result { s with resultDf := r }, ?_, ?_⟩
    · simp [hp]
    · simp [persist_result]
  · refine ⟨{ s with resultDf := r }, ?_, ?_⟩
    · simp [hp]
    · rfl

theorem transformStage_nil (cfg : FactorConfig) (pipe : Option Frame)
    (h : cfg.transformers = []) : transformStage cfg pipe = Except.ok pipe := by
  unfold transformStage
  simp [h]

theorem doCompute_pipeDf_of_stage (cfg : FactorConfig) (s : FactorState)
    (p : Option Frame) (h : transformStage cfg s.pipeDf = Except.ok p) :
    (outState (doCompute cfg s)).pipeDf = p := by
  unfold doCompute
  rw [h]
  dsimp only
  repeat' split
  all_goals rfl

theorem runTransformers_pure (fs : List (Frame → Frame)) (p : Frame) :
    runTransformers (fs.map pureT) p =
      Except.ok (fs.foldl (fun d f => f d) p) := by
  induction fs generalizing p with
  | nil => rfl
  | cons f fs ih =>
    simp only [List.map_cons, runTransformers, pureT, List.foldl_cons]
    exact ih (f p)

theorem mem_firstDedupAux (x : Nat) : ∀ (l seen : List Nat),
    x ∈ firstDedupAux l seen ↔ x ∈ l ∧ x ∉ seen
  | [], seen => by simp [firstDedupAux]
  | y :: ys, seen => by
    by_cases hy : y ∈ seen
    · rw [firstDedupAux, if_pos hy, mem_firstDedupAux x ys seen]
      constructor
      · rintro ⟨h1, h2⟩
        exact ⟨List.mem_cons_of_mem _ h1, h2⟩
      · rintro ⟨h1, h2⟩
        rcases List.mem_cons.mp h1 with h | h
        · subst h; exact absurd hy h2
        · exact ⟨h, h2⟩
    · rw [firstDedupAux, if_neg hy]
      constructor
      · intro h
        rcases List.mem_cons.mp h with h | h
        · subst h
          exact ⟨List.mem_cons_self _ _, hy⟩
        · rw [mem_firstDedupAux x ys (y :: seen)] at h
          obtain ⟨h1, h2⟩ := h
          exact ⟨List.mem_cons_of_mem _ h1,
            fun hx => h2 (List.mem_cons_of_mem _ hx)⟩
      · rintro ⟨h1, h2⟩
        by_cases hxy : x = y
        · subst hxy; exact List.mem_cons_self _ _
        · rcases List.mem_cons.mp h1 with h | h
          · exact absurd h hxy
          · refine List.mem_cons_of_mem _ ?_
            rw [mem_firstDedupAux x ys (y :: seen)]
            exact ⟨h, fun hx => (List.mem_cons.mp hx).elim hxy h2⟩

theorem nodup_firstDedupAux : ∀ (l seen : List Nat),
    (firstDedupAux l seen).Nodup
  | [], seen => by simp [firstDedupAux]
  | y :: ys, seen => by
    by_cases hy : y ∈ seen
    · rw [firstDedupAux, if_pos hy]
      exact nodup_firstDedupAux ys seen
    · rw [firstDedupAux, if_neg hy]
      refine List.nodup_cons.mpr ⟨?_, nodup_firstDedupAux ys (y :: seen)⟩
      intro hmem
      rw [mem_firstDedupAux] at hmem
      exact hmem.2 (List.mem_cons_self _ _)

theorem mem_firstDedup (x : Nat) (l : List Nat) :
    x ∈ firstDedup l ↔ x ∈ l := by
  rw [firstDedup, mem_firstDedupAux]
  simp

theorem nodup_firstDedup (l : List Nat) : (firstDedup l).Nodup :=
  nodup_firstDedupAux l []

theorem filter_flatten_entity (e : Nat) : ∀ (es : List Nat) (f : Nat → Frame),
    (∀ e2 ∈ es, ∀ r ∈ f e2, r.entityId = e2) → es.Nodup →
    ((es.map f).flatten.filter (fun r => r.entityId == e)) =
      if e ∈ es then f e else []
  | [], f, _, _ => by simp
  | e2 :: es, f, hall, hnd => by
    rw [List.map_cons, List.flatten_cons, List.filter_append]
    have htail := filter_flatten_entity e es f
      (fun x hx => hall x (List.mem_cons_of_mem _ hx))
      (List.nodup_cons.mp hnd).2
    by_cases he : e2 = e
    · subst he
      have h1 : (f e2).filter (fun r => r.entityId == e2) = f e2 :=
        List.filter_eq_self.mpr (fun r hr => by
          simp [hall e2 (List.mem_cons_self _ _) r hr])
      have hne : e2 ∉ es := (List.nodup_cons.mp hnd).1
      rw [h1, htail, if_neg hne, if_pos (List.mem_cons_self _ _)]
      simp
    · have h1 : (f e2).filter (fun r => r.entityId == e) = [] := by
        rw [List.filter_eq_nil_iff]
        intro r hr
        rw [hall e2 (List.mem_cons_self _ _) r hr]
        simp [he]
      rw [h1, htail, List.nil_append]
      by_cases hes : e ∈ es
      · rw [if_pos hes, if_pos (List.mem_cons_of_mem _ hes)]
      · rw [if_neg hes, if_neg (fun hmem => by
          rcases List.mem_cons.mp hmem with h | h
          · exact he h.symm
          · exact hes h)]

theorem entityRows_load_window (w : Nat) (store : Frame) (e : Nat) :
    entityRows (load_window_df w store) e =
      (entityRows store e).drop ((entityRows store e).length - w) := by
  unfold load_window_df entityRows
  rw [filter_flatten_entity e (firstDedup (store.map Row.entityId))
    (fun e2 => ((store.filter (fun r => r.entityId == e2)).drop
      ((store.filter (fun r => r.entityId == e2)).length - w)))
    (fun e2 _ r hr => by
      have hmem := List.mem_of_mem_drop hr
      have := (List.mem_filter.mp hmem).2
      exact eq_of_beq this)
    (nodup_firstDedup _)]
  by_cases he : e ∈ firstDedup (store.map Row.entityId)
  · rw [if_pos he]
  · rw [if_neg he]
    have hnone : store.filter (fun r => r.entityId == e) = [] := by
      rw [List.filter_eq_nil_iff]
      intro r hr hbeq
      apply he
      rw [mem_firstDedup]
      have : r.entityId = e := eq_of_beq hbeq
      rw [← this]
      exact List.mem_map_of_mem Row.entityId hr
    rw [hnone]
    simp

theorem length_ffillAux (lim : Nat) (vs : List (Option Int)) :
    ∀ (last : Option Int) (cnt : Nat),
      (ffillAux lim last cnt vs).length = vs.length := by
  induction vs with
  | nil => intro last cnt; cases last <;> rfl
  | cons v vs ih =>
    intro last cnt
    cases v with
    | some x => cases last <;> simp [ffillAux, ih]
    | none => cases last <;> simp [ffillAux, ih]

theorem length_applyFill (m : FillMethod) (lim : Nat)
    (vs : List (Option Int)) : (applyFill m lim vs).length = vs.length := by
  cases m with
  | ffill => exact length_ffillAux lim vs none 0
  | bfill => simp [applyFill, bfillLimited, ffillLimited, length_ffillAux]

theorem map_rowKey_setValues (rs : Frame) (vs : List (Option Int))
    (h : vs.length = rs.length) :
    (setValues rs vs).map rowKey = rs.map rowKey := by
  induction rs generalizing vs with
  | nil => rfl
  | cons r rs ih =>
    cases vs with
    | nil => simp at h
    | cons v vs =>
      simp only [List.length_cons, Nat.add_right_cancel_iff] at h
      simp only [setValues, List.zipWith_cons_cons, List.map_cons]
      exact congrArg (List.cons _) (ih vs h)

theorem map_rowKey_reindexRows (f : Frame) (es ds : List Nat) :
    (reindexRows f es ds).map rowKey = denseKeys es ds := by
  unfold reindexRows denseKeys
  rw [List.map_flatten, List.map_map]
  congr 1
  apply List.map_congr_left
  intro e _
  simp only [Function.comp_apply, List.map_map]
  apply List.map_congr_left
  intro t _
  rfl

/-! The claims. -/

/-- Claim C1: if a transformer raises during `do_compute`, the cycle
aborts: `compute` propagates the exception with `pipe_df` at its last
successfully produced value, and the observed post-cycle state keeps
`factor_df` exactly as it was before the cycle while the persistence sink
(`persist_result` / `df_to_db`) is never invoked for that cycle. -/
theorem C1_transformer_raise_aborts_cycle (cfg : FactorConfig)
    (s : FactorState) (p p2 : Frame)
    (hdata : s.dataDf = some p)
    (hne : df_is_not_null (some p) = true)
    (hts : cfg.transformers.isEmpty = false)
    (hfail : runTransformers cfg.transformers p = Except.error p2) :
    compute cfg s = Except.error { s with pipeDf := some p2 } ∧
    (outState (compute cfg s)).factorDf = s.factorDf ∧
    (outState (compute cfg s)).persistCalls = s.persistCalls ∧
    (outState (compute cfg s)).persisted = s.persisted := by
  have hc : compute cfg s = Except.error { s with pipeDf := some p2 } := by
    unfold compute preCompute doCompute transformStage
    simp [hdata, hne, hts, hfail]
  refine ⟨hc, ?_, ?_, ?_⟩ <;> rw [hc] <;> rfl

/-- Witness for C1 at a concrete raising transformer. -/
theorem C1_transformer_raise_aborts_cycle_witness :
    (outState (compute c1Cfg c1State)).factorDf = c1State.factorDf ∧
    (outState (compute c1Cfg c1State)).persistCalls = c1State.persistCalls ∧
    (outState (compute c1Cfg c1State)).persisted = c1State.persisted := by
  have h := C1_transformer_raise_aborts_cycle c1Cfg c1State
    [Row.mk 1 0 (some 1)] [Row.mk 1 0 (some 1)] rfl rfl rfl rfl
  exact ⟨h.2.1, h.2.2.1, h.2.2.2⟩

/-- Claim C2 (the code contradicts it): with the keep-all-timestamps
option enabled, `fill_gap` on an absent (`None`) ResultFrame raises
(`self.result_df.index` on `None` is an `AttributeError`) instead of being
a no-op; a present frame (even an empty one that still carries its
entity/timestamp index) is processed without raising. -/
theorem C2_fill_gap_raises_on_absent_result :
    fillGap keepCfg none = Except.error () ∧
    fillGap keepCfg (some []) = Except.ok (some []) :=
  ⟨rfl, rfl⟩

/-- Claim C3: `ScoreFactor.__init__` forwards its arguments after
`auto_load` to `Factor.__init__` positionally with the `valid_window` slot
omitted, so every value lands one slot early: `valid_window` receives the
`keep_all_timestamp` value, `keep_all_timestamp` the `fill_method` value,
`fill_method` the `effective_number` value, `effective_number` the
`transformers` value, `transformers` the `need_persist` value,
`accumulator` the `dry_run` value, and the base `need_persist` and
`dry_run` keep their declared defaults `True` and `False`. -/
theorem C3_score_factor_positional_shift (k f e t n d : PyVal) :
    scoreFactorInitTail k f e t n d =
      { valid_window := k, keep_all_timestamp := f, fill_method := e,
        effective_number := t, transformers := n, accumulator := d,
        need_persist := PyVal.vBool true, dry_run := PyVal.vBool false } :=
  rfl

/-- Claim C4: when the pipe frame reaching the accumulator stage is empty
or absent, `do_compute` takes the `else` branch and assigns that
empty/absent pipe frame to `factor_df`, even when an accumulator is
configured — whatever `factor_df` held before (warm start or prior
accumulation) is discarded. -/
theorem C4_empty_pipe_discards_factor_df (cfg : FactorConfig)
    (s : FactorState) (pDf : Option Frame)
    (hacc : cfg.accumulator.isSome = true)
    (hstage : transformStage cfg s.pipeDf = Except.ok pDf)
    (hempty : df_is_not_null pDf = false) :
    doCompute cfg s = Except.ok { s with pipeDf := pDf, factorDf := pDf } := by
  unfold doCompute
  rw [hstage]
  simp [hempty]

/-- Witness for C4: absent pipe frame with a configured accumulator and a
warm-started `factor_df`; after `do_compute` the factor frame is the
absent pipe frame, the prior content gone. -/
theorem C4_empty_pipe_discards_factor_df_witness :
    doCompute c4Cfg c4State =
      Except.ok { c4State with pipeDf := none, factorDf := none } ∧
    c4State.factorDf = some [Row.mk 1 0 (some 42)] :=
  ⟨C4_empty_pipe_discards_factor_df c4Cfg c4State none rfl rfl rfl, rfl⟩

/-- Claim C5: with no accumulator and unchanged input, a second
`compute()` call reproduces the factor frame of the first call. -/
theorem C5_idempotent_without_accumulator (cfg : FactorConfig)
    (s s1 : FactorState)
    (hacc : cfg.accumulator = none)
    (h1 : compute cfg s = Except.ok s1) :
    ∃ s2, compute cfg s1 = Except.ok s2 ∧ s2.factorDf = s1.factorDf := by
  unfold compute at h1
  cases hd : doCompute cfg (preCompute s) with
  | error sE => rw [hd] at h1; exact absurd h1 (by simp)
  | ok sA =>
    rw [hd] at h1
    rw [doCompute_no_acc cfg (preCompute s) hacc] at hd
    cases ht : transformStage cfg (preCompute s).pipeDf with
    | error p => rw [ht] at hd; exact absurd hd (by simp)
    | ok p =>
      rw [ht] at hd
      simp only [Except.ok.injEq] at hd
      subst hd
      obtain ⟨hfill, hfac, hdat, _⟩ := afterCompute_ok_destruct cfg _ s1 h1
      unfold compute
      rw [doCompute_no_acc cfg (preCompute s1) hacc]
      have hpipe1 : (preCompute s1).pipeDf = (preCompute s).pipeDf := by
        simp only [preCompute] at hdat ⊢
        simpa using hdat
      rw [hpipe1, ht]
      obtain ⟨r2, hr2⟩ := fillGap_ok_of_ok cfg _ _ hfill
      obtain ⟨u, hu, hufac⟩ := afterCompute_ok_of_fillGap cfg
        { preCompute s1 with pipeDf := p, factorDf := p } r2 hr2
      refine ⟨u, hu, ?_⟩
      rw [hufac]
      exact hfac.symm

/-- Witness for C5: a pure one-transformer chain over fixed input. -/
theorem C5_idempotent_without_accumulator_witness :
    ∃ s2, compute c5Cfg (outState (compute c5Cfg c5State)) = Except.ok s2 ∧
      s2.factorDf = (outState (compute c5Cfg c5State)).factorDf :=
  C5_idempotent_without_accumulator c5Cfg c5State
    (outState (compute c5Cfg c5State)) rfl rfl

/-- Claim C6: with no accumulator configured the accumulator stage is
skipped, and after `do_compute` the factor frame equals the current
post-transform pipe frame. -/
theorem C6_no_accumulator_factor_df_is_pipe_df (cfg : FactorConfig)
    (s s2 : FactorState)
    (hacc : cfg.accumulator = none)
    (hok : doCompute cfg s = Except.ok s2) :
    s2.factorDf = s2.pipeDf := by
  rw [doCompute_no_acc cfg s hacc] at hok
  cases ht : transformStage cfg s.pipeDf with
  | error p => rw [ht] at hok; exact absurd hok (by simp)
  | ok p =>
    rw [ht] at hok
    simp only [Except.ok.injEq] at hok
    subst hok
    rfl

/-- Witness for C6 at a concrete stateless cycle. -/
theorem C6_no_accumulator_factor_df_is_pipe_df_witness :
    (outState (doCompute c6Cfg c6State)).factorDf =
      (outState (doCompute c6Cfg c6State)).pipeDf :=
  C6_no_accumulator_factor_df_is_pipe_df c6Cfg c6State
    (outState (doCompute c6Cfg c6State)) rfl rfl

/-- Claim C7: with keep-all-timestamps enabled, `fill_gap` reindexes the
result frame onto the dense per-entity key set of every calendar day
between `start_timestamp` and `end_timestamp` (first conjunct), keeps the
first occurrence of a duplicated key (third conjunct), and fills missing
values along the fill direction capped at `effective_number` consecutive
positions: the series [1, NaN, NaN, NaN, 5] over five days with forward
fill and cap 2 yields [1, 1, 1, NaN, 5] (second conjunct). -/
theorem C7_fill_gap_dense_reindex_capped_fill :
    (∀ cfg df out, cfg.keepAllTimestamp = true →
        fillGap cfg (some df) = Except.ok (some out) →
        out.map rowKey =
          denseKeys (firstDedup (df.map Row.entityId))
            (dateRange cfg.startTimestamp cfg.endTimestamp)) ∧
    fillGap keepCfg (some gapSeries) = Except.ok (some gapFilled) ∧
    fillGap dupCfg (some dupSeries) = Except.ok (some [Row.mk 1 0 (some 7)]) := by
  refine ⟨?_, rfl, rfl⟩
  intro cfg df out hk hout
  unfold fillGap at hout
  rw [if_pos hk] at hout
  simp only [Except.ok.injEq, Option.some.injEq] at hout
  subst hout
  rw [map_rowKey_setValues _ _ ?hlen, map_rowKey_reindexRows]
  case hlen =>
    rw [length_applyFill, List.length_map]

/-- Witness for C7's dense-reindex conjunct at the concrete gap series. -/
theorem C7_fill_gap_dense_reindex_capped_fill_witness :
    gapFilled.map rowKey =
      denseKeys (firstDedup (gapSeries.map Row.entityId)) (dateRange 0 4) :=
  C7_fill_gap_dense_reindex_capped_fill.1 keepCfg gapSeries gapFilled rfl rfl

/-- Claim C8: with persistence enabled the warm-start seed of `factor_df`
depends on the run mode — dry-run loads via `load_window_df`, which keeps
only the trailing `valid_window` rows of each entity (at most
`valid_window` rows per entity), while full mode loads every persisted row
whose timestamp is at least `start_timestamp`. -/
theorem C8_warm_start_mode (w st : Nat) (store : Frame) :
    warm_start true true w st store = some (load_window_df w store) ∧
    warm_start true false w st store = some (get_data st store) ∧
    (∀ r, r ∈ get_data st store ↔ r ∈ store ∧ st ≤ r.timestamp) ∧
    (∀ e, entityRows (load_window_df w store) e =
      (entityRows store e).drop ((entityRows store e).length - w)) ∧
    (∀ e, (entityRows (load_window_df w store) e).length ≤ w) := by
  refine ⟨rfl, rfl, ?_, fun e => entityRows_load_window w store e, ?_⟩
  · intro r
    simp [get_data, List.mem_filter]
  · intro e
    rw [entityRows_load_window w store e, List.length_drop]
    omega

/-- Claim C9 counterexample: on a `StateFactor` (which inherits the base
`do_compute` unchanged and declares `states = []`), a cycle over a
non-empty pipe frame leaves ResultFrame absent — no state is written for
the key `(1, 0)` — and the declared state set is empty, so "one of the
declared states per key" is unsatisfiable. -/
theorem C9_counterexample :
    (outState (doCompute c9Cfg c9State)).resultDf = none ∧
    df_is_not_null c9State.pipeDf = true ∧
    stateFactor_states = [] :=
  ⟨rfl, rfl, rfl⟩

/-- Claim C9 amended: `StateFactor` only declares the state interface —
its `states` list is empty, `get_state`/`get_short_state`/`get_long_state`
are stubs returning nothing, and the inherited `do_compute` never writes
ResultFrame; populating ResultFrame with a declared state per key is an
obligation on concrete subclasses, not behavior of this code. -/
theorem C9_state_factor_is_stub :
    (∀ cfg s, (outState (doCompute cfg s)).resultDf = s.resultDf) ∧
    stateFactor_states = [] ∧
    (∀ ts e, stateFactor_get_state ts e = none) ∧
    stateFactor_get_short_state = none ∧
    stateFactor_get_long_state = none :=
  ⟨fun cfg s => doCompute_resultDf cfg s, rfl, fun _ _ => rfl, rfl, rfl⟩

/-- Claim C10: `do_compute` applies the transformer list sequentially in
its given order — for a chain of pure transforms the pipe frame becomes
the left fold of the chain over its input — and an empty transformer list
leaves the pipe frame unchanged.  The sequencing equation for
`runTransformers` exposes that each transform consumes the frame produced
by the previous one. -/
theorem C10_transformer_chain_sequential :
    (∀ cfg s, cfg.transformers = [] →
      (outState (doCompute cfg s)).pipeDf = s.pipeDf) ∧
    (∀ (fs : List (Frame → Frame)) (p : Frame),
      runTransformers (fs.map pureT) p =
        Except.ok (fs.foldl (fun d f => f d) p)) ∧
    (∀ cfg s (p : Frame) (fs : List (Frame → Frame)),
      cfg.transformers = fs.map pureT → s.pipeDf = some p →
      p.isEmpty = false →
      (outState (doCompute cfg s)).pipeDf =
        some (fs.foldl (fun d f => f d) p)) := by
  refine ⟨?_, runTransformers_pure, ?_⟩
  · intro cfg s h
    exact doCompute_pipeDf_of_stage cfg s s.pipeDf (transformStage_nil cfg s.pipeDf h)
  · intro cfg s p fs hts hp hne
    apply doCompute_pipeDf_of_stage
    rw [hp]
    unfold transformStage
    rw [hts]
    cases fs with
    | nil =>
      simp
    | cons f fs =>
      have hcond : (df_is_not_null (some p) && !(List.map pureT (f :: fs)).isEmpty) = true := by
        simp [df_is_not_null, hne]
      rw [if_pos hcond]
      dsimp only
      rw [runTransformers_pure (f :: fs) p]

/-- Witness for C10: the chain [add one, double] maps value 3 to
`(3 + 1) * 2 = 8` (order-sensitively), and the empty chain leaves the
pipe frame untouched. -/
theorem C10_transformer_chain_sequential_witness :
    (outState (doCompute c10Cfg c10State)).pipeDf = some [Row.mk 1 0 (some 8)] ∧
    (outState (doCompute c10CfgNil c10State)).pipeDf = c10State.pipeDf :=
  ⟨C10_transformer_chain_sequential.2.2 c10Cfg c10State
      [Row.mk 1 0 (some 3)] [addOneT, doubleT] rfl rfl rfl,
    C10_transformer_chain_sequential.1 c10CfgNil c10State rfl⟩

end ZvData
